import Mathlib

/-!
Shallow embedding of the `oq` OpenAPI terminal browser core (main.go):
the variable-height viewport/scroll engine (`ensureCursorVisible`), the
navigation state machine (`Update`), the filter engine (`filterItems`),
the double-key gesture detector, and the curl-command generator
(`generateCurl` / `generateExampleJSON`).

Go `int` values are modelled as `Int`.  Fallible operations (paths on
which the Go program would panic with an index-out-of-range error)
return `Option`, with `none` marking the panic.  Loops are modelled by
structurally recursive functions on an explicit iteration count that
equals the number of iterations the Go loop performs, so every
definition evaluates by kernel reduction.
-/

/-! ## String helpers (Go `strings` package operations used by the core) -/

/-- Go `strings.Count(s, "\n")`: number of newline characters in `s`
(for a one-character separator, non-overlapping count = character count). -/
def countNewlines (s : String) : Int :=
  ((s.toList.filter (fun c => c = '\n')).length : Int)

/-- Helper for substring containment: does `sub` occur as a contiguous
sublist of `l`? -/
def subListOf (sub : List Char) : List Char → Bool
  | [] => sub.isEmpty
  | c :: rest => sub.isPrefixOf (c :: rest) || subListOf sub rest

/-- Go `strings.Contains(s, sub)`: substring containment. -/
def strContains (s sub : String) : Bool :=
  subListOf sub.toList s.toList

/-- Go `strings.ToLower` (ASCII-faithful; the core only ever compares
case-folded text, and no claim depends on non-ASCII case folding). -/
def goToLower (s : String) : String :=
  ⟨s.toList.map Char.toLower⟩

/-! ## Layout constants (main.go) -/

/-- Go `headerApproxLines = 2`. -/
def headerApproxLines : Int := 2

/-- Go `footerApproxLines = 4`. -/
def footerApproxLines : Int := 4

/-- Go `layoutBuffer = 2`. -/
def layoutBuffer : Int := 2

/-- Go `keySequenceThreshold = 500 * time.Millisecond`, in nanoseconds. -/
def keySequenceThreshold : Int := 500000000

/-- Go `scrollHalfScreenLines = 21`. -/
def scrollHalfScreenLines : Int := 21

/-- Go `calculateContentHeight(totalHeight)`:
`max(1, totalHeight-headerApproxLines-footerApproxLines-layoutBuffer)`. -/
def calculateContentHeight (totalHeight : Int) : Int :=
  max 1 (totalHeight - headerApproxLines - footerApproxLines - layoutBuffer)

/-! ## Viewport/scroll engine

`ensureCursorVisible` only inspects the items of the active collection
through their rendered heights (`getItemHeight`), so the engine is
embedded over the list `hs` of rendered heights of the active
collection; the `Model`-level wrapper below instantiates `hs` with the
heights of the active collection of the current mode, exactly as the
Go method's `switch m.mode` does. -/

/-- Go `getItemHeight(index)` specialised to a fixed active collection
with rendered heights `hs`: indices at or past the end return `1`
(the Go guard `index >= len(...)`); a negative index would panic in Go
(`eps[index]`), modelled as `none`. -/
def heightAt (hs : List Int) (index : Int) : Option Int :=
  if (hs.length : Int) ≤ index then some 1
  else if index < 0 then none
  else hs.get? index.toNat

/-- The loop `for i := from; i <= cursor && i < len(items); i++ { linesUsed += getItemHeight(i) }`,
by structural recursion on the remaining iteration budget `fuel`.
The wrapper `sumRange` supplies `fuel = (cursor + 1 - from).toNat`,
which is 0 exactly when the loop body never runs because `i > cursor`. -/
def sumRangeF (hs : List Int) (cursor : Int) : Nat → Int → Option Int
  | 0, _ => some 0
  | fuel + 1, i =>
    if i ≤ cursor ∧ i < (hs.length : Int) then do
      let v ← heightAt hs i
      let rest ← sumRangeF hs cursor fuel (i + 1)
      some (v + rest)
    else some 0

/-- Cumulative rendered height of items `[lo, cursor]` of the active
collection (clipped at the end of the collection), as computed by the
summation loops in Go `ensureCursorVisible`. -/
def sumRange (hs : List Int) (lo cursor : Int) : Option Int :=
  sumRangeF hs cursor (cursor + 1 - lo).toNat lo

/-- The scan `for newScrollOffset := scrollOffset + 1; newScrollOffset <= cursor; newScrollOffset++`
of Go `ensureCursorVisible`, by structural recursion on the remaining
candidate count: returns the first candidate whose test line count
fits within `contentHeight`, and `fallback` (the unchanged incoming
scroll offset) when no candidate fits. -/
def scanFitF (hs : List Int) (contentHeight cursor fallback : Int) :
    Nat → Int → Option Int
  | 0, _ => some fallback
  | fuel + 1, cand =>
    if cand ≤ cursor then do
      let s ← sumRange hs cand cursor
      if (if 0 < cand then 1 else 0) + s ≤ contentHeight then some cand
      else scanFitF hs contentHeight cursor fallback fuel (cand + 1)
    else some fallback

/-- Wrapper supplying the iteration budget for `scanFitF`. -/
def scanFit (hs : List Int) (contentHeight cursor fallback cand : Int) : Option Int :=
  scanFitF hs contentHeight cursor fallback (cursor + 1 - cand).toNat cand

/-- Go `ensureCursorVisible` over the rendered heights `hs` of the
active collection, the total terminal `height`, and the current
`cursor` and `scrollOffset`; returns the new scroll offset (`none`
would mark a panic, which requires a negative scroll offset together
with a nonempty collection). Mirrors the source's control flow:
cursor 0 forces offset 0; an empty collection returns unchanged;
a cursor above the window scrolls straight up to it; otherwise the
lines used from `scrollOffset` through `cursor` (plus the "more items
above" indicator when `scrollOffset > 0`) are compared against the
content height and, on overflow, the first larger offset that fits is
adopted; finally a negative offset is clamped to 0. -/
def ensureCursorVisible (hs : List Int) (height cursor scrollOffset : Int) : Option Int :=
  let contentHeight := calculateContentHeight height
  if cursor = 0 then some 0
  else if hs.length = 0 then some scrollOffset
  else if cursor < scrollOffset then some cursor
  else do
    let base ← sumRange hs scrollOffset cursor
    let linesUsed := base + (if 0 < scrollOffset then 1 else 0)
    let off ←
      if contentHeight < linesUsed then
        scanFit hs contentHeight cursor scrollOffset (scrollOffset + 1)
      else some scrollOffset
    some (if off < 0 then 0 else off)

/-- Lines used when rendering items `[t, cursor]` with the
"more items above" indicator accounted for (the quantity Go's
`ensureCursorVisible` compares against the content height). -/
def linesUsedAt (hs : List Int) (cursor t : Int) : Option Int :=
  (sumRange hs t cursor).map (fun s => (if 0 < t then 1 else 0) + s)

example : ensureCursorVisible [1, 1, 1] 18 2 0 = some 0 := by decide
example : ensureCursorVisible [1, 3] 10 1 0 = some 0 := by decide
example : ensureCursorVisible [1, 1, 1, 1] 10 3 0 = some 3 := by decide

/-! ## Data model

The entity records mirror the Go structs in main.go; operation data
reachable through the `op *v3.Operation` pointer is flattened into an
`Op` record holding exactly the fields the core reads (`Summary`,
`Description`, `RequestBody`, `Security`) plus the detail text used by
the item-height computation.  Library nil-pointers are modelled as
`Option`. -/

/-- A fragment of `base.Schema` (pb33f libopenapi) with exactly the
fields `generateExampleJSON` reads. `example` and `enum` entries hold
the `fmt.Sprintf("%v", ...)` rendering of the underlying values;
proxies whose `.Schema()` is nil are `none`; `items` is `some` when
`schema.Items != nil && schema.Items.IsA()`, carrying `A.Schema()`. -/
inductive Schema where
  | mk (exampleVal : Option String) (stype : List String)
      (properties : List (String × Option Schema))
      (items : Option (Option Schema)) (enum : List String)
      (format : String) (allOf : List (Option Schema)) : Schema

/-- Go `schema.Example`, rendered with `%v` (nil pointer = `none`). -/
def Schema.exampleVal : Schema → Option String
  | .mk e _ _ _ _ _ _ => e

/-- Go `schema.Type`. -/
def Schema.stype : Schema → List String
  | .mk _ t _ _ _ _ _ => t

/-- Go `schema.Properties` (ordered map; a nil map is `[]`). -/
def Schema.properties : Schema → List (String × Option Schema)
  | .mk _ _ p _ _ _ _ => p

/-- Go `schema.Items` (see the constructor's doc). -/
def Schema.items : Schema → Option (Option Schema)
  | .mk _ _ _ i _ _ _ => i

/-- Go `schema.Enum`, entries rendered with `%v`. -/
def Schema.enum : Schema → List String
  | .mk _ _ _ _ e _ _ => e

/-- Go `schema.Format`. -/
def Schema.format : Schema → String
  | .mk _ _ _ _ _ f _ => f

/-- Go `schema.AllOf` (schema proxies; `.Schema()` nil = `none`). -/
def Schema.allOf : Schema → List (Option Schema)
  | .mk _ _ _ _ _ _ a => a

/-- Go `base.SecurityScheme`: the fields read by `generateCurl`. -/
structure SecurityScheme where
  schemeType : String  -- Go field `Type`
  scheme : String      -- Go field `Scheme`
  inLoc : String       -- Go field `In`
  name : String        -- Go field `Name`
deriving DecidableEq

/-- Go `v3.MediaType`: `Schema` is a proxy (outer `Option`) whose
`.Schema()` may be nil (inner `Option`). -/
structure MediaType where
  schema : Option (Option Schema)

/-- Go `v3.RequestBody`: `Content` is a nil-able ordered map from
media-type name to media type. -/
structure RequestBody where
  content : Option (List (String × MediaType))

/-- The slice of `v3.Operation` read by the core: `Summary` and
`Description` (filtering), `RequestBody` and `Security`
(`generateCurl`; of each `SecurityRequirement` only the requirement
keys are read), and the operation's rendered detail text.

`detailsText` is Modelled from the spec: `formatEndpointDetails` /
`formatWebhookDetails` live in view.go, which is not part of src/;
per spec §4.2 only the newline-delimited detail block they return
matters for item heights, so the rendered text is carried as data. -/
structure Op where
  summary : String
  description : String
  requestBody : Option RequestBody
  security : List (List String)
  detailsText : String

/-- The slice of `v3.Document` read by the core: server URLs and the
security schemes (`none` when `Components` or
`Components.SecuritySchemes` is nil). -/
structure Doc where
  servers : List String
  securitySchemes : Option (List (String × SecurityScheme))

/-- Go `endpoint` struct. -/
structure Endpoint where
  path : String
  method : String
  op : Op
  folded : Bool

/-- Go `webhook` struct. -/
structure Webhook where
  name : String
  method : String
  op : Op
  folded : Bool

/-- Go `component` struct. -/
structure Component where
  name : String
  compType : String
  description : String
  details : String
  folded : Bool

/-- Go `viewMode` enumeration. -/
inductive ViewMode where
  | endpoints
  | components
  | webhooks
deriving DecidableEq

/-- The command returned to the bubbletea runtime: `nilCmd` covers both
a nil command and the text-input's internal command (neither affects
core state); `quit` is `tea.Quit`. -/
inductive TeaCmd where
  | nilCmd
  | quit
deriving DecidableEq

/-- The messages processed by Go `Update`: terminal resizes and key
presses (identified by `msg.String()`). -/
inductive Msg where
  | windowSize (width height : Int)
  | key (s : String)

/-- Go `Model`.  `searchValue` stands for `searchInput.Value()`: the
textinput widget is an external library component of which the core
only reads the text value (`Focus`/`Blur`/`Placeholder` do not affect
core state).  `lastKeyAt` is the gesture timestamp in nanoseconds,
with the Go zero `time.Time{}` modelled as `0`. -/
structure Model where
  doc : Doc
  endpoints : List Endpoint
  components : List Component
  webhooks : List Webhook
  cursor : Int
  mode : ViewMode
  width : Int
  height : Int
  showHelp : Bool
  lastKey : String
  lastKeyAt : Int
  scrollOffset : Int
  searchMode : Bool
  searchValue : String
  filteredEndpoints : List Endpoint
  filteredComponents : List Component
  filteredWebhooks : List Webhook
  showCurl : Bool
  curlCommand : String

/-- Go `getActiveEndpoints`. -/
def Model.getActiveEndpoints (m : Model) : List Endpoint :=
  if m.searchValue ≠ "" then m.filteredEndpoints else m.endpoints

/-- Go `getActiveComponents`. -/
def Model.getActiveComponents (m : Model) : List Component :=
  if m.searchValue ≠ "" then m.filteredComponents else m.components

/-- Go `getActiveWebhooks`. -/
def Model.getActiveWebhooks (m : Model) : List Webhook :=
  if m.searchValue ≠ "" then m.filteredWebhooks else m.webhooks

/-- Go `getMaxItems`: `len(active) - 1` for the current mode. -/
def Model.getMaxItems (m : Model) : Int :=
  match m.mode with
  | .endpoints => (m.getActiveEndpoints.length : Int) - 1
  | .components => (m.getActiveComponents.length : Int) - 1
  | .webhooks => (m.getActiveWebhooks.length : Int) - 1

/-- Go `hasWebhooks`. -/
def Model.hasWebhooks (m : Model) : Bool :=
  0 < m.webhooks.length

/-- Modelled from the spec: Go `formatEndpointDetails` lives in
view.go, which is missing from src/; per spec 4.2 only its
newline-delimited detail block matters for item heights, so the
rendered text is carried as data on the operation record. -/
def formatEndpointDetails (ep : Endpoint) : String :=
  ep.op.detailsText

/-- Modelled from the spec: Go `formatWebhookDetails` lives in
view.go, which is missing from src/; modelled like
`formatEndpointDetails`. -/
def formatWebhookDetails (h : Webhook) : String :=
  h.op.detailsText

/-- Rendered height of an endpoint item, from Go `getItemHeight`:
1 when folded, otherwise `1 + strings.Count(details, "\n") + 1`. -/
def endpointHeight (ep : Endpoint) : Int :=
  if ep.folded then 1 else 1 + countNewlines (formatEndpointDetails ep) + 1

/-- Rendered height of a component item, from Go `getItemHeight`. -/
def componentHeight (c : Component) : Int :=
  if c.folded then 1 else 1 + countNewlines c.details + 1

/-- Rendered height of a webhook item, from Go `getItemHeight`. -/
def webhookHeight (h : Webhook) : Int :=
  if h.folded then 1 else 1 + countNewlines (formatWebhookDetails h) + 1

/-- Rendered heights of the active collection of the current mode (the
`switch m.mode` dispatch shared by `getItemHeight` and the item list
built at the top of `ensureCursorVisible`). -/
def Model.activeHeights (m : Model) : List Int :=
  match m.mode with
  | .endpoints => m.getActiveEndpoints.map endpointHeight
  | .components => m.getActiveComponents.map componentHeight
  | .webhooks => m.getActiveWebhooks.map webhookHeight

/-- Go method `ensureCursorVisible` on the model (the spec calls this
`recomputeScroll`): updates only `scrollOffset`. -/
def Model.recomputeScroll (m : Model) : Option Model :=
  (ensureCursorVisible m.activeHeights m.height m.cursor m.scrollOffset).map
    (fun off => { m with scrollOffset := off })

/-! ## Filter engine (Go `filterItems`) -/

/-- The endpoint match predicate of Go `filterItems` (`query` is
already lower-cased). -/
def endpointMatches (query : String) (ep : Endpoint) : Bool :=
  strContains (goToLower ep.path) query ||
  strContains (goToLower ep.method) query ||
  (ep.op.summary ≠ "" && strContains (goToLower ep.op.summary) query) ||
  (ep.op.description ≠ "" && strContains (goToLower ep.op.description) query)

/-- The component match predicate of Go `filterItems`. -/
def componentMatches (query : String) (c : Component) : Bool :=
  strContains (goToLower c.name) query ||
  strContains (goToLower c.compType) query ||
  strContains (goToLower c.description) query

/-- The webhook match predicate of Go `filterItems`. -/
def webhookMatches (query : String) (h : Webhook) : Bool :=
  strContains (goToLower h.name) query ||
  strContains (goToLower h.method) query ||
  (h.op.summary ≠ "" && strContains (goToLower h.op.summary) query) ||
  (h.op.description ≠ "" && strContains (goToLower h.op.description) query)

/-- Go `filterItems`: lower-cases the query; an empty query clears the
three filtered collections (`nil` slices); otherwise each filtered
collection is rebuilt from its master collection by the type-specific
match predicate. -/
def Model.filterItems (m : Model) : Model :=
  let query := goToLower m.searchValue
  if query = "" then
    { m with filteredEndpoints := [], filteredComponents := [],
             filteredWebhooks := [] }
  else
    { m with
      filteredEndpoints := m.endpoints.filter (endpointMatches query),
      filteredComponents := m.components.filter (componentMatches query),
      filteredWebhooks := m.webhooks.filter (webhookMatches query) }

/-! ## Curl-command generator (Go `generateExampleJSON`, `generateCurl`)

Go iterates the `headers` map with `for key, value := range headers`;
Go map iteration order is unspecified (randomized per run), so the
generator is embedded as `generateCurl ep doc headerOrder`, taking the
header iteration order explicitly; the set of headers the Go code puts
in the map is `buildHeaders ep doc` (in insertion order), and a run of
the Go program emits `generateCurl ep doc l` for some permutation `l`
of `buildHeaders ep doc`. -/

/-- Body of Go `generateExampleJSON`, structurally recursive on
`fuel = 4 - depth`; fuel 0 is exactly the `depth > 3` guard. -/
def genExampleF : Nat → Schema → String
  | 0, _ => "null"
  | fuel + 1, s =>
    match s.exampleVal with
    | some ex => ex
    | none =>
      let typed : Option String :=
        match s.stype with
        | [] => none
        | t :: _ =>
          if t = "object" then
            let props := s.properties.map (fun p =>
              let value :=
                match p.2 with
                | some ps => genExampleF fuel ps
                | none => "\"example\""
              "\"" ++ p.1 ++ "\": " ++ value)
            some (if 0 < props.length then
                    "\x7b " ++ String.intercalate ", " props ++ " \x7d"
                  else "{}")
          else if t = "array" then
            some (match s.items with
                  | some (some itemSchema) => "[ " ++ genExampleF fuel itemSchema ++ " ]"
                  | _ => "[]")
          else if t = "string" then
            some (match s.enum with
                  | e :: _ => "\"" ++ e ++ "\""
                  | [] =>
                    if s.format = "date" then "\"2024-01-01\""
                    else if s.format = "date-time" then "\"2024-01-01T00:00:00Z\""
                    else if s.format = "email" then "\"user@example.com\""
                    else "\"string\"")
          else if t = "number" ∨ t = "integer" then some "0"
          else if t = "boolean" then some "false"
          else if t = "null" then some "null"
          else none
      match typed with
      | some r => r
      | none =>
        let allProps := s.allOf.filterMap (fun proxy =>
          match proxy with
          | some sub =>
            let ex := genExampleF fuel sub
            if ex ≠ "{}" ∧ ex ≠ "null" then some ex else none
          | none => none)
        match allProps with
        | p :: _ => p
        | [] => "{}"

/-- Go `generateExampleJSON(schema, doc, depth)`.  The `doc` argument
is threaded but never read by the Go function; the nil-schema guard is
only reachable from call sites that already check for nil, which the
`Option` at those call sites models. -/
def generateExampleJSON (s : Schema) (depth : Nat) : String :=
  genExampleF (4 - depth) s

/-- Go map assignment `headers[k] = v` on the insertion-ordered
association-list view of the map: overwrites the value of an existing
key, otherwise appends. -/
def mapUpsert (hs : List (String × String)) (k v : String) : List (String × String) :=
  if hs.any (fun p => p.1 = k) then
    hs.map (fun p => if p.1 = k then (k, v) else p)
  else hs ++ [(k, v)]

/-- Go `doc.Components.SecuritySchemes.GetOrZero(secName)`: first
binding of the key, `none` when absent (or when `Components` /
`SecuritySchemes` is nil, handled at the call site). -/
def lookupScheme : List (String × SecurityScheme) → String → Option SecurityScheme
  | [], _ => none
  | p :: rest, k => if p.1 = k then some p.2 else lookupScheme rest k

/-- Go `Content.GetOrZero("application/json")`: first binding of the
media-type key. -/
def lookupMedia : List (String × MediaType) → String → Option MediaType
  | [], _ => none
  | p :: rest, k => if p.1 = k then some p.2 else lookupMedia rest k

/-- The `headers` map built by Go `generateCurl`, in insertion order:
`Content-Type` when a request body is present, then the security
headers derived from the operation's security requirements and the
document's security schemes. -/
def buildHeaders (ep : Endpoint) (doc : Doc) : List (String × String) :=
  let headers : List (String × String) := []
  let headers :=
    if ep.op.requestBody.isSome then
      mapUpsert headers "Content-Type" "application/json"
    else headers
  if 0 < ep.op.security.length then
    ep.op.security.foldl (fun acc secReq =>
      secReq.foldl (fun acc secName =>
        match doc.securitySchemes with
        | none => acc
        | some schemes =>
          match lookupScheme schemes secName with
          | none => acc
          | some scheme =>
            if scheme.schemeType = "http" then
              if scheme.scheme = "bearer" then
                mapUpsert acc "Authorization" "Bearer YOUR_TOKEN"
              else if scheme.scheme = "basic" then
                mapUpsert acc "Authorization" "Basic YOUR_CREDENTIALS"
              else acc
            else if scheme.schemeType = "apiKey" then
              if scheme.inLoc = "header" then
                mapUpsert acc scheme.name "YOUR_API_KEY"
              else acc
            else acc) acc) headers
  else headers

/-- Go `generateCurl(ep, doc)` with the header-map iteration order
passed explicitly as `headerOrder` (see the section comment): command
and URL, one `-H` line per header in the given order, then the example
request body when an `application/json` request body is declared. -/
def generateCurl (ep : Endpoint) (doc : Doc)
    (headerOrder : List (String × String)) : String :=
  let curl := "curl -X " ++ ep.method
  let baseURL :=
    match doc.servers with
    | u :: _ => u
    | [] => "https://api.example.com"
  let curl := curl ++ " '" ++ baseURL ++ ep.path ++ "'"
  let curl := headerOrder.foldl
    (fun acc kv => acc ++ " \\\n  -H '" ++ kv.1 ++ ": " ++ kv.2 ++ "'") curl
  match ep.op.requestBody with
  | some rb =>
    match rb.content with
    | some contentList =>
      match lookupMedia contentList "application/json" with
      | some jsonContent =>
        let bodyJSON :=
          match jsonContent.schema with
          | some (some s) => generateExampleJSON s 0
          | _ => "{}"
        curl ++ " \\\n  -d '" ++ bodyJSON ++ "'"
      | none => curl
    | none => curl
  | none => curl

/-! ## Fold-toggle write-through helpers

Go's fold toggle loops over the master slice, flips the `folded` flag
of the first identity match, calls `filterItems`, and breaks; when no
item matches, neither the flip nor `filterItems` happens.  The helpers
return the updated master list together with whether a match was
found. -/

/-- The master-slice loop of the endpoint fold toggle (identity =
path + method). -/
def toggleFirstEndpoint (p mth : String) : List Endpoint → List Endpoint × Bool
  | [] => ([], false)
  | e :: rest =>
    if e.path = p ∧ e.method = mth then
      ({ e with folded := !e.folded } :: rest, true)
    else
      let r := toggleFirstEndpoint p mth rest
      (e :: r.1, r.2)

/-- The master-slice loop of the component fold toggle (identity =
name). -/
def toggleFirstComponent (n : String) : List Component → List Component × Bool
  | [] => ([], false)
  | c :: rest =>
    if c.name = n then ({ c with folded := !c.folded } :: rest, true)
    else
      let r := toggleFirstComponent n rest
      (c :: r.1, r.2)

/-- The master-slice loop of the webhook fold toggle (identity =
name + method). -/
def toggleFirstWebhook (n mth : String) : List Webhook → List Webhook × Bool
  | [] => ([], false)
  | h :: rest =>
    if h.name = n ∧ h.method = mth then
      ({ h with folded := !h.folded } :: rest, true)
    else
      let r := toggleFirstWebhook n mth rest
      (h :: r.1, r.2)

/-! ## Navigation state machine (Go `Update`)

`ti key value` models the external `textinput.Model.Update` library
call, of which the core observes only the resulting text value.
`now` models the `time.Now()` call in the gesture detector, in
nanoseconds.  A result of `none` marks a Go panic (negative slice
index).  The `curlCommand` stored by the `r` key is `generateCurl`
at the insertion-order representative of the header map (a run of the
Go program may emit any permutation of those headers; no claim about
`Update` reads the string). -/

/-- Go `Update`. -/
def Model.update (ti : String → String → String) (now : Int) (m : Model)
    (msg : Msg) : Option (Model × TeaCmd) :=
  match msg with
  | .windowSize w h => some ({ m with width := w, height := h }, .nilCmd)
  | .key s =>
    if m.searchMode then
      if s = "esc" then
        let m1 := ({ m with searchMode := false, searchValue := "" }).filterItems
        some ({ m1 with cursor := 0, scrollOffset := 0 }, .nilCmd)
      else if s = "ctrl+c" then some (m, .quit)
      else if s = "enter" then some ({ m with searchMode := false }, .nilCmd)
      else
        let m1 := ({ m with searchValue := ti s m.searchValue }).filterItems
        some ({ m1 with cursor := 0, scrollOffset := 0 }, .nilCmd)
    else if s = "q" ∨ s = "ctrl+c" then
      if m.showHelp then some ({ m with showHelp := false }, .nilCmd)
      else some (m, .quit)
    else if s = "?" then some ({ m with showHelp := !m.showHelp }, .nilCmd)
    else if s = "/" then
      if !m.showHelp then
        some (({ m with searchMode := true, searchValue := "" }).filterItems, .nilCmd)
      else some (m, .nilCmd)
    else if s = "esc" then
      if m.showHelp then some ({ m with showHelp := false }, .nilCmd)
      else if m.searchMode then
        -- dead branch in the source: searchMode was already handled above
        let m1 := ({ m with searchMode := false, searchValue := "" }).filterItems
        some ({ m1 with cursor := 0, scrollOffset := 0 }, .nilCmd)
      else if m.showCurl then some ({ m with showCurl := false }, .nilCmd)
      else some (m, .nilCmd)
    else if s = "r" then
      if !m.showHelp ∧ !m.searchMode then
        match m.mode with
        | .endpoints =>
          let eps := m.getActiveEndpoints
          if m.cursor < (eps.length : Int) then
            if 0 ≤ m.cursor then
              match eps.get? m.cursor.toNat with
              | some ep =>
                some ({ m with
                        curlCommand := generateCurl ep m.doc (buildHeaders ep m.doc),
                        showCurl := true }, .nilCmd)
              | none => none
            else none  -- Go: eps[m.cursor] with a negative index panics
          else some (m, .nilCmd)
        | .webhooks =>
          let hooks := m.getActiveWebhooks
          if m.cursor < (hooks.length : Int) then
            if 0 ≤ m.cursor then
              match hooks.get? m.cursor.toNat with
              | some hook =>
                let tempEp : Endpoint :=
                  { path := hook.name, method := hook.method, op := hook.op,
                    folded := false }
                some ({ m with
                        curlCommand := generateCurl tempEp m.doc (buildHeaders tempEp m.doc),
                        showCurl := true }, .nilCmd)
              | none => none
            else none
          else some (m, .nilCmd)
        | .components => some (m, .nilCmd)
      else some (m, .nilCmd)
    else if s = "tab" ∨ s = "L" then
      if !m.showHelp then
        let newMode :=
          match m.mode with
          | .endpoints => if m.hasWebhooks then ViewMode.webhooks else ViewMode.components
          | .webhooks => ViewMode.components
          | .components => ViewMode.endpoints
        some ({ m with mode := newMode, cursor := 0, scrollOffset := 0 }, .nilCmd)
      else some (m, .nilCmd)
    else if s = "shift+tab" ∨ s = "H" then
      if !m.showHelp then
        let newMode :=
          match m.mode with
          | .endpoints => ViewMode.components
          | .webhooks => ViewMode.endpoints
          | .components => if m.hasWebhooks then ViewMode.webhooks else ViewMode.endpoints
        some ({ m with mode := newMode, cursor := 0, scrollOffset := 0 }, .nilCmd)
      else some (m, .nilCmd)
    else if s = "up" ∨ s = "k" then
      if !m.showHelp ∧ 0 < m.cursor then do
        let m' ← ({ m with cursor := m.cursor - 1 }).recomputeScroll
        some (m', .nilCmd)
      else some (m, .nilCmd)
    else if s = "down" ∨ s = "j" then
      if !m.showHelp then
        if m.cursor < m.getMaxItems then do
          let m' ← ({ m with cursor := m.cursor + 1 }).recomputeScroll
          some (m', .nilCmd)
        else some (m, .nilCmd)
      else some (m, .nilCmd)
    else if s = "ctrl+d" then
      if !m.showHelp then do
        let maxItems := m.getMaxItems
        let newCursorPos := m.cursor + scrollHalfScreenLines
        let m1 :=
          if maxItems < newCursorPos then { m with cursor := maxItems }
          else { m with cursor := m.cursor + scrollHalfScreenLines }
        let m' ← m1.recomputeScroll
        some (m', .nilCmd)
      else some (m, .nilCmd)
    else if s = "ctrl+u" then
      if !m.showHelp then do
        let halfLines := max 1 (calculateContentHeight m.height / 2)
        let m1 :=
          if m.cursor < halfLines then { m with cursor := 0 }
          else { m with cursor := m.cursor - halfLines }
        let m' ← m1.recomputeScroll
        some (m', .nilCmd)
      else some (m, .nilCmd)
    else if s = "G" then
      if !m.showHelp then
        let maxItems := m.getMaxItems
        if 0 ≤ maxItems then do
          let m' ← ({ m with cursor := maxItems }).recomputeScroll
          some (m', .nilCmd)
        else some (m, .nilCmd)
      else some (m, .nilCmd)
    else if s = "g" then
      if m.lastKey = "g" ∧ now - m.lastKeyAt < keySequenceThreshold then do
        let m1 ←
          if !m.showHelp then ({ m with cursor := 0 }).recomputeScroll
          else some m
        -- reset, so "ggg" wouldn't be triggered
        some ({ m1 with lastKey := "", lastKeyAt := 0 }, .nilCmd)
      else some ({ m with lastKey := "g", lastKeyAt := now }, .nilCmd)
    else if s = "enter" ∨ s = " " then
      if !m.showHelp ∧ !m.searchMode then
        match m.mode with
        | .endpoints =>
          let eps := m.getActiveEndpoints
          if m.cursor < (eps.length : Int) then
            if 0 ≤ m.cursor then
              match eps.get? m.cursor.toNat with
              | some target =>
                let r := toggleFirstEndpoint target.path target.method m.endpoints
                let m1 := { m with endpoints := r.1 }
                some ((if r.2 then m1.filterItems else m1), .nilCmd)
              | none => none
            else none
          else some (m, .nilCmd)
        | .components =>
          let comps := m.getActiveComponents
          if m.cursor < (comps.length : Int) then
            if 0 ≤ m.cursor then
              match comps.get? m.cursor.toNat with
              | some target =>
                let r := toggleFirstComponent target.name m.components
                let m1 := { m with components := r.1 }
                some ((if r.2 then m1.filterItems else m1), .nilCmd)
              | none => none
            else none
          else some (m, .nilCmd)
        | .webhooks =>
          let hooks := m.getActiveWebhooks
          if m.cursor < (hooks.length : Int) then
            if 0 ≤ m.cursor then
              match hooks.get? m.cursor.toNat with
              | some target =>
                let r := toggleFirstWebhook target.name target.method m.webhooks
                let m1 := { m with webhooks := r.1 }
                some ((if r.2 then m1.filterItems else m1), .nilCmd)
              | none => none
            else none
          else some (m, .nilCmd)
      else some (m, .nilCmd)
    else some (m, .nilCmd)

/-! ## Concrete fixtures for evaluation theorems -/

/-- An operation with no extra data. -/
def opEmpty : Op :=
  { summary := "", description := "", requestBody := none, security := [],
    detailsText := "" }

/-- A folded component (rendered height 1). -/
def compF (n : String) : Component :=
  { name := n, compType := "schema", description := "", details := "",
    folded := true }

/-- An unfolded component whose detail block has 8 newlines (rendered
height `1 + 8 + 1 = 10`), the spec's §8 tall-item scenario. -/
def compBig : Component :=
  { name := "big", compType := "schema", description := "",
    details := "1\n2\n3\n4\n5\n6\n7\n8\n", folded := false }

/-- A baseline browsing-state model (the fields `NewModel` initialises,
with empty collections). -/
def baseModel : Model :=
  { doc := { servers := [], securitySchemes := none },
    endpoints := [], components := [], webhooks := [],
    cursor := 0, mode := .components, width := 80, height := 24,
    showHelp := false, lastKey := "", lastKeyAt := 0, scrollOffset := 0,
    searchMode := false, searchValue := "", filteredEndpoints := [],
    filteredComponents := [], filteredWebhooks := [], showCurl := false,
    curlCommand := "" }

/-- A text-input transition that leaves the value unchanged. -/
def tiKeep (_key value : String) : String :=
  value

/-- A text-input transition that appends the pressed key to the value
(ordinary character entry). -/
def tiAppend (key value : String) : String :=
  value ++ key

/-- Spec §8 scenario state: five height-1 items, then an unfolded item
of rendered height 10; terminal height 18 gives content height 10;
cursor on index 4 with scroll offset 0. -/
def c2model : Model :=
  { baseModel with
    components := [compF "a", compF "b", compF "c", compF "d", compF "e", compBig],
    height := 18, cursor := 4 }

/-- A committed no-match search: nonempty master endpoints, query
"zzz", all filtered collections empty, browsing mode. -/
def c3model : Model :=
  { baseModel with
    mode := .endpoints,
    endpoints := [{ path := "/pets", method := "GET", op := opEmpty, folded := true }],
    searchValue := "zzz" }

/-- Browsing state with the command overlay open. -/
def c4model : Model :=
  { baseModel with components := [compF "a", compF "b"], showCurl := true }

/-- Browsing state with the cursor on index 3 of four height-1 items. -/
def c5model : Model :=
  { baseModel with
    components := [compF "a", compF "b", compF "c", compF "d"],
    cursor := 3 }

/-- Browsing state with the cursor on index 4 of five height-1 items. -/
def c7model : Model :=
  { baseModel with
    components := [compF "a", compF "b", compF "c", compF "d", compF "e"],
    cursor := 4 }

/-- A POST endpoint with a JSON request body and a bearer security
requirement: `generateCurl` puts two headers in its map. -/
def ep9 : Endpoint :=
  { path := "/pets", method := "POST",
    op := { summary := "", description := "",
            requestBody := some { content := some [("application/json", { schema := none })] },
            security := [["bearerAuth"]], detailsText := "" },
    folded := true }

/-- Document for `ep9`: one server and the bearer scheme. -/
def doc9 : Doc :=
  { servers := ["https://api.x.com"],
    securitySchemes := some [("bearerAuth",
      { schemeType := "http", scheme := "bearer", inLoc := "", name := "" })] }

/-- An endpoint whose header map holds a single entry (request body,
no security), for the deterministic-output witness. -/
def epW : Endpoint :=
  { path := "/w", method := "PUT",
    op := { summary := "", description := "",
            requestBody := some { content := none },
            security := [], detailsText := "" },
    folded := true }

/-- The scroll-offset candidate `t` "fits": rendering items
`[t, cursor]` plus the above-indicator stays within `contentHeight`. -/
def fitsWithin (hs : List Int) (contentHeight cursor t : Int) : Prop :=
  ∃ v, linesUsedAt hs cursor t = some v ∧ v ≤ contentHeight

/-- Browsing state with the help overlay open. -/
def c4helpModel : Model :=
  { baseModel with
    components := [compF "a", compF "b"], showHelp := true, cursor := 1 }

/-- Search-editing state over a small document (for the live-filter
witness). -/
def c10model : Model :=
  { baseModel with
    mode := .endpoints,
    endpoints := [{ path := "/pets", method := "GET", op := opEmpty,
                    folded := true }],
    components := [compF "a"],
    searchMode := true }

/-- Document for `epW`: no servers, no security schemes. -/
def docW : Doc :=
  { servers := [], securitySchemes := none }

/-- `c5model` with a pending `g` in the gesture memory (timestamp 0). -/
def c5gModel : Model :=
  { c5model with lastKey := "g" }

/-- The navigation keys of the outer key dispatch (every handled key
other than the dismiss/quit/help keys `q`, `ctrl+c`, `?`, `esc`). -/
def navKeys : List String :=
  ["/", "tab", "L", "shift+tab", "H", "up", "k", "down", "j",
   "ctrl+d", "ctrl+u", "G", "r", "enter", " ", "g"]

/-! ## Helper lemmas for the scroll engine -/

theorem heightAt_isSome (hs : List Int) (i : Int) (h : 0 ≤ i) :
    ∃ v, heightAt hs i = some v := by
  unfold heightAt
  split_ifs with h1 h2
  · exact ⟨1, rfl⟩
  · omega
  · exact ⟨hs.get ⟨i.toNat, by omega⟩, List.get?_eq_get _⟩

theorem sumRangeF_isSome (hs : List Int) (cursor : Int) :
    ∀ (fuel : Nat) (i : Int), 0 ≤ i → ∃ v, sumRangeF hs cursor fuel i = some v := by
  intro fuel
  induction fuel with
  | zero => exact fun i _ => ⟨0, rfl⟩
  | succ fuel ih =>
    intro i hi
    unfold sumRangeF
    by_cases hc : i ≤ cursor ∧ i < (hs.length : Int)
    · obtain ⟨v, hv⟩ := heightAt_isSome hs i hi
      obtain ⟨rest, hrest⟩ := ih (i + 1) (by omega)
      exact ⟨v + rest, by simp [hc, hv, hrest]⟩
    · exact ⟨0, by simp [hc]⟩

theorem sumRange_isSome (hs : List Int) (lo cursor : Int) (h : 0 ≤ lo) :
    ∃ v, sumRange hs lo cursor = some v :=
  sumRangeF_isSome hs cursor _ lo h

theorem linesUsedAt_eq (hs : List Int) (cursor t s : Int)
    (h : sumRange hs t cursor = some s) :
    linesUsedAt hs cursor t = some ((if 0 < t then 1 else 0) + s) := by
  simp [linesUsedAt, h]

theorem not_fitsWithin_of_over (hs : List Int) (cH cursor t s : Int)
    (h : sumRange hs t cursor = some s)
    (hover : cH < (if 0 < t then 1 else 0) + s) :
    ¬ fitsWithin hs cH cursor t := by
  rintro ⟨v, hv, hle⟩
  rw [linesUsedAt_eq hs cursor t s h] at hv
  have : (if 0 < t then 1 else 0) + s = v := by
    exact Option.some.inj hv
  omega


theorem scanFitF_spec (hs : List Int) (cH cursor fb : Int) :
    ∀ (fuel : Nat) (cand : Int), 0 ≤ cand → fuel = (cursor + 1 - cand).toNat →
    ∃ r, scanFitF hs cH cursor fb fuel cand = some r ∧
      ((cand ≤ r ∧ r ≤ cursor ∧ fitsWithin hs cH cursor r ∧
         ∀ t, cand ≤ t → t < r → ¬ fitsWithin hs cH cursor t) ∨
       (r = fb ∧ ∀ t, cand ≤ t → t ≤ cursor → ¬ fitsWithin hs cH cursor t)) := by
  intro fuel
  induction fuel with
  | zero =>
    intro cand _ hf
    exact ⟨fb, rfl, Or.inr ⟨rfl, fun t ht1 ht2 _ => by omega⟩⟩
  | succ fuel ih =>
    intro cand hc hf
    have hcc : cand ≤ cursor := by omega
    obtain ⟨s, hsum⟩ := sumRange_isSome hs cand cursor hc
    unfold scanFitF
    rw [if_pos hcc, hsum]
    by_cases hfit : (if 0 < cand then 1 else 0) + s ≤ cH
    · refine ⟨cand, by simp [hfit], Or.inl ⟨le_refl cand, hcc, ?_, ?_⟩⟩
      · exact ⟨(if 0 < cand then 1 else 0) + s, linesUsedAt_eq hs cursor cand s hsum, hfit⟩
      · intro t ht1 ht2; omega
    · have hnofit : ¬ fitsWithin hs cH cursor cand :=
        not_fitsWithin_of_over hs cH cursor cand s hsum (by omega)
      obtain ⟨r, hr, hprop⟩ := ih (cand + 1) (by omega) (by omega)
      refine ⟨r, by simp [hfit, hr], ?_⟩
      rcases hprop with ⟨h1, h2, h3, h4⟩ | ⟨h1, h2⟩
      · refine Or.inl ⟨by omega, h2, h3, ?_⟩
        intro t ht1 ht2
        by_cases ht : t = cand
        · exact ht ▸ hnofit
        · exact h4 t (by omega) ht2
      · refine Or.inr ⟨h1, ?_⟩
        intro t ht1 ht2
        by_cases ht : t = cand
        · exact ht ▸ hnofit
        · exact h2 t (by omega) ht2

theorem ensureCursorVisible_eq (hs : List Int) (height cursor scrollOffset : Int) :
    ensureCursorVisible hs height cursor scrollOffset =
      if cursor = 0 then some 0
      else if hs.length = 0 then some scrollOffset
      else if cursor < scrollOffset then some cursor
      else
        (sumRange hs scrollOffset cursor).bind (fun base =>
          if calculateContentHeight height <
              base + (if 0 < scrollOffset then 1 else 0) then
            (scanFit hs (calculateContentHeight height) cursor scrollOffset
                (scrollOffset + 1)).bind (fun off =>
              some (if off < 0 then 0 else off))
          else
            (some scrollOffset).bind (fun off =>
              some (if off < 0 then 0 else off))) := by
  unfold ensureCursorVisible
  rfl

/-- Full characterization of `ensureCursorVisible` for in-window
states, shared by the C1 and C2 theorems. -/
theorem ensureCursorVisible_spec :
    (∀ (hs : List Int) (height s₀ : Int),
      ensureCursorVisible hs height 0 s₀ = some 0) ∧
    (∀ (hs : List Int) (height cursor s₀ : Int),
      0 < cursor → 0 ≤ s₀ → s₀ ≤ cursor → cursor < (hs.length : Int) →
      ∃ s', ensureCursorVisible hs height cursor s₀ = some s' ∧
        s₀ ≤ s' ∧ s' ≤ cursor ∧
        ((fitsWithin hs (calculateContentHeight height) cursor s' ∧
           ∀ t, s₀ ≤ t → t < s' →
             ¬ fitsWithin hs (calculateContentHeight height) cursor t) ∨
         (s' = s₀ ∧ ∀ t, s₀ ≤ t → t ≤ cursor →
             ¬ fitsWithin hs (calculateContentHeight height) cursor t))) := by
  constructor
  · intro hs height s₀
    rw [ensureCursorVisible_eq, if_pos rfl]
  · intro hs height cursor s₀ hc hs₀ hle hlen
    obtain ⟨base, hbase⟩ := sumRange_isSome hs s₀ cursor hs₀
    rw [ensureCursorVisible_eq, if_neg (by omega : ¬ cursor = 0),
        if_neg (by omega : ¬ hs.length = 0), if_neg (by omega : ¬ cursor < s₀),
        hbase]
    simp only [Option.some_bind]
    by_cases hover :
        calculateContentHeight height < base + (if 0 < s₀ then 1 else 0)
    · rw [if_pos hover]
      obtain ⟨r, hr, hprop⟩ :=
        scanFitF_spec hs (calculateContentHeight height) cursor s₀
          ((cursor + 1 - (s₀ + 1)).toNat) (s₀ + 1) (by omega) rfl
      unfold scanFit
      rw [hr]
      simp only [Option.some_bind]
      rcases hprop with ⟨h1, h2, h3, h4⟩ | ⟨h1, h2⟩
      · rw [if_neg (show ¬ r < 0 by omega)]
        refine ⟨r, rfl, by omega, h2, Or.inl ⟨h3, ?_⟩⟩
        intro t ht1 ht2
        by_cases ht : t = s₀
        · subst ht
          exact not_fitsWithin_of_over hs _ cursor t base hbase (by omega)
        · exact h4 t (by omega) ht2
      · rw [if_neg (show ¬ r < 0 by omega)]
        refine ⟨r, rfl, by omega, by omega, Or.inr ⟨h1, ?_⟩⟩
        intro t ht1 ht2
        by_cases ht : t = s₀
        · subst ht
          exact not_fitsWithin_of_over hs _ cursor t base hbase (by omega)
        · exact h2 t (by omega) ht2
    · rw [if_neg hover]
      rw [if_neg (show ¬ s₀ < 0 by omega)]
      refine ⟨s₀, rfl, le_refl s₀, hle, Or.inl ⟨?_, ?_⟩⟩
      · exact ⟨(if 0 < s₀ then 1 else 0) + base,
          linesUsedAt_eq hs cursor s₀ base hbase, by omega⟩
      · intro t ht1 ht2; omega

/-- C1 (corrected, amended form): after `ensureCursorVisible`, a cursor
of 0 forces scroll offset 0; otherwise, for a valid in-window state
(`0 ≤ scrollOffset ≤ cursor < length`), the engine returns an offset
`s'` with `scrollOffset ≤ s' ≤ cursor` that either (a) satisfies the
height bound and is the smallest offset *greater than or equal to the
incoming `scrollOffset`* (not globally smallest) satisfying it, or
(b) equals the incoming offset unchanged because *no* offset in
`[scrollOffset, cursor]` satisfies the bound (so the bound can fail,
e.g. when the cursor item plus the above-indicator exceed the content
height). -/
theorem c1_scroll_minimality_relative :
    (∀ (hs : List Int) (height s₀ : Int),
      ensureCursorVisible hs height 0 s₀ = some 0) ∧
    (∀ (hs : List Int) (height cursor s₀ : Int),
      0 < cursor → 0 ≤ s₀ → s₀ ≤ cursor → cursor < (hs.length : Int) →
      ∃ s', ensureCursorVisible hs height cursor s₀ = some s' ∧
        s₀ ≤ s' ∧ s' ≤ cursor ∧
        ((fitsWithin hs (calculateContentHeight height) cursor s' ∧
           ∀ t, s₀ ≤ t → t < s' →
             ¬ fitsWithin hs (calculateContentHeight height) cursor t) ∨
         (s' = s₀ ∧ ∀ t, s₀ ≤ t → t ≤ cursor →
             ¬ fitsWithin hs (calculateContentHeight height) cursor t))) :=
  ensureCursorVisible_spec

/-- C1 (counterexample to the claim as stated): (a) heights `[1, 3]`,
terminal height 10 (content height 2), cursor 1, scroll offset 0 — the
recompute leaves offset 0 yet the cumulative height 4 of items `[0, 1]`
exceeds the content height, because no offset fits; (b) heights
`[1, 1, 1, 1]`, terminal height 20 (content height 12), cursor 3,
scroll offset 2 — the recompute keeps offset 2 although the strictly
smaller offset 0 also satisfies the bound (cumulative height 4 ≤ 12),
so the "no smaller scrollOffset satisfies that bound" part fails. -/
theorem c1_scroll_bound_counterexample :
    (ensureCursorVisible [1, 3] 10 1 0 = some 0 ∧
     linesUsedAt [1, 3] 1 0 = some 4 ∧
     calculateContentHeight 10 = 2 ∧ ¬ ((4 : Int) ≤ 2)) ∧
    (ensureCursorVisible [1, 1, 1, 1] 20 3 2 = some 2 ∧
     linesUsedAt [1, 1, 1, 1] 3 0 = some 4 ∧
     calculateContentHeight 20 = 12 ∧ (4 : Int) ≤ 12 ∧ (0 : Int) < 2) := by
  decide

/-- C2 (counterexample to the claim as stated): the spec's tall-item
scenario — content height 10, items of heights `[1, 1, 1, 1, 1, 10]`,
cursor moving from 4 onto the unfolded item 5.  The `down` handler
leaves `scrollOffset` at 0 (the scan finds no fitting offset: even
offset 5 needs 1 indicator line + 10 item lines = 11 > 10), so only
the first 5 of the cursor item's 10 lines fit in the viewport — the
cursor item *is* clipped from below; and no scroll offset could have
shown all 10 lines, since any positive offset adds the above-indicator
line (the last six conjuncts cover every offset in `[0, 5]`). -/
theorem c2_tall_cursor_item_clipped :
    (Model.update tiKeep 0 c2model (.key "down")).map
      (fun p => (p.1.cursor, p.1.scrollOffset)) = some (5, 0) ∧
    c2model.activeHeights = [1, 1, 1, 1, 1, 10] ∧
    calculateContentHeight c2model.height = 10 ∧
    linesUsedAt c2model.activeHeights 5 0 = some 15 ∧
    ¬ fitsWithin c2model.activeHeights 10 5 0 ∧
    ¬ fitsWithin c2model.activeHeights 10 5 1 ∧
    ¬ fitsWithin c2model.activeHeights 10 5 2 ∧
    ¬ fitsWithin c2model.activeHeights 10 5 3 ∧
    ¬ fitsWithin c2model.activeHeights 10 5 4 ∧
    ¬ fitsWithin c2model.activeHeights 10 5 5 := by
  refine ⟨by decide, by decide, by decide, by decide, ?_, ?_, ?_, ?_, ?_, ?_⟩
  · exact not_fitsWithin_of_over _ 10 5 0 15 (by decide) (by decide)
  · exact not_fitsWithin_of_over _ 10 5 1 14 (by decide) (by decide)
  · exact not_fitsWithin_of_over _ 10 5 2 13 (by decide) (by decide)
  · exact not_fitsWithin_of_over _ 10 5 3 12 (by decide) (by decide)
  · exact not_fitsWithin_of_over _ 10 5 4 11 (by decide) (by decide)
  · exact not_fitsWithin_of_over _ 10 5 5 10 (by decide) (by decide)

theorem sumRange_self (hs : List Int) (cursor v : Int) (h0 : 0 ≤ cursor)
    (hlen : cursor < (hs.length : Int)) (hv : heightAt hs cursor = some v) :
    sumRange hs cursor cursor = some v := by
  have hf : (cursor + 1 - cursor).toNat = 1 := by omega
  rw [sumRange, hf]
  unfold sumRangeF
  rw [if_pos ⟨le_refl cursor, hlen⟩, hv]
  simp [sumRangeF]

/-- C2 (corrected, amended form): the cursor item is fully visible
after the recompute *provided it can be*: for an in-window state, if
the cursor item's rendered height plus the one above-indicator line
fits within the content height, the recompute ends at an offset whose
cumulative height through the cursor (indicator included) fits, so the
cursor item is not clipped.  In the spec's scenario the item's height
equals the content height, no offset fits, and the engine leaves the
offset unchanged with the cursor item clipped from below (see the
counterexample). -/
theorem c2_cursor_item_visible_when_fits :
    ∀ (hs : List Int) (height cursor s₀ hc : Int),
    0 < cursor → 0 ≤ s₀ → s₀ ≤ cursor → cursor < (hs.length : Int) →
    heightAt hs cursor = some hc →
    1 + hc ≤ calculateContentHeight height →
    ∃ s', ensureCursorVisible hs height cursor s₀ = some s' ∧
      s₀ ≤ s' ∧ s' ≤ cursor ∧
      fitsWithin hs (calculateContentHeight height) cursor s' := by
  intro hs height cursor s₀ hc h1 h2 h3 h4 hheight hfit
  obtain ⟨s', hecv, hle1, hle2, hspec⟩ :=
    ensureCursorVisible_spec.2 hs height cursor s₀ h1 h2 h3 h4
  have hsum : sumRange hs cursor cursor = some hc :=
    sumRange_self hs cursor hc (by omega) h4 hheight
  have hfc : fitsWithin hs (calculateContentHeight height) cursor cursor := by
    refine ⟨(if 0 < cursor then 1 else 0) + hc,
      linesUsedAt_eq hs cursor cursor hc hsum, ?_⟩
    rw [if_pos h1]
    omega
  rcases hspec with ⟨hf, _⟩ | ⟨_, hnone⟩
  · exact ⟨s', hecv, hle1, hle2, hf⟩
  · exact absurd hfc (hnone cursor h3 (le_refl cursor))

/-- C2 witness: the amended theorem at heights `[1, 2]`, terminal
height 20 (content height 12), cursor 1, offset 0: the item of height
2 plus the indicator fits, so the cursor item ends fully visible. -/
theorem c2_cursor_item_visible_when_fits_witness :
    ∃ s', ensureCursorVisible [1, 2] 20 1 0 = some s' ∧
      (0 : Int) ≤ s' ∧ s' ≤ 1 ∧
      fitsWithin [1, 2] (calculateContentHeight 20) 1 s' :=
  c2_cursor_item_visible_when_fits [1, 2] 20 1 0 2 (by decide) (by decide)
    (by decide) (by decide) (by decide) (by decide)

/-- C3 (the bounds invariant fails on the code): in a committed
no-match search (active collection empty, cursor 0), pressing `ctrl+d`
sets the cursor to `getMaxItems() = len - 1 = -1`: the cursor leaves
`[0, len-1]` and `scrollOffset ≤ cursor` fails, although the claim
demands that every half-page jump on an empty collection leave the
cursor at 0. -/
theorem c3_empty_collection_negative_cursor :
    c3model.getActiveEndpoints.length = 0 ∧
    c3model.cursor = 0 ∧
    (Model.update tiKeep 0 c3model (.key "ctrl+d")).map
      (fun p => (p.1.cursor, p.1.scrollOffset)) = some (-1, 0) ∧
    ¬ ((0 : Int) ≤ -1) := by
  decide

/-- C4 (counterexample to the claim as stated): with the command
overlay (`showCurl`) visible and help hidden, pressing the navigation
key `down` is *not* ignored: the cursor moves from 0 to 1 while the
overlay stays open. -/
theorem c4_curl_overlay_not_modal_counterexample :
    c4model.showCurl = true ∧ c4model.showHelp = false ∧
    c4model.cursor = 0 ∧
    (Model.update tiKeep 0 c4model (.key "down")).map
      (fun p => (p.1.cursor, p.1.showCurl)) = some (1, true) := by
  decide

/-- C4 (corrected, amended form): only the *help* overlay is modal:
while `showHelp` is set, every navigation key leaves the cursor,
scroll offset, view mode and all three master collections (hence every
fold flag) unchanged.  The command overlay has no such guard — see the
counterexample — so the amended statement drops it. -/
theorem c4_help_overlay_modal :
    ∀ (ti : String → String → String) (now : Int) (m : Model) (key : String),
    m.showHelp = true → m.searchMode = false → key ∈ navKeys →
    ∃ m' c, Model.update ti now m (.key key) = some (m', c) ∧
      m'.cursor = m.cursor ∧ m'.scrollOffset = m.scrollOffset ∧
      m'.mode = m.mode ∧ m'.endpoints = m.endpoints ∧
      m'.components = m.components ∧ m'.webhooks = m.webhooks := by
  intro ti now m key hh hsm hk
  simp only [navKeys, List.mem_cons, List.not_mem_nil, or_false] at hk
  rcases hk with rfl | rfl | rfl | rfl | rfl | rfl | rfl | rfl | rfl | rfl |
    rfl | rfl | rfl | rfl | rfl | rfl
  iterate 15
    exact ⟨m, .nilCmd, by simp [Model.update, hh, hsm],
      rfl, rfl, rfl, rfl, rfl, rfl⟩
  -- remaining goal: key = "g"
  by_cases hg : m.lastKey = "g" ∧ now - m.lastKeyAt < keySequenceThreshold
  · exact ⟨{ m with lastKey := "", lastKeyAt := 0 }, .nilCmd,
      by simp [Model.update, hh, hsm, hg], rfl, rfl, rfl, rfl, rfl, rfl⟩
  · exact ⟨{ m with lastKey := "g", lastKeyAt := now }, .nilCmd,
      by simp [Model.update, hh, hsm, hg], rfl, rfl, rfl, rfl, rfl, rfl⟩

/-- C4 witness: the amended theorem applied at a concrete
help-overlay state and the `down` key. -/
theorem c4_help_overlay_modal_witness :
    c4helpModel.showHelp = true ∧ c4helpModel.searchMode = false ∧
    "down" ∈ navKeys ∧
    (∃ m' c, Model.update tiKeep 0 c4helpModel (.key "down") = some (m', c) ∧
      m'.cursor = c4helpModel.cursor ∧
      m'.scrollOffset = c4helpModel.scrollOffset ∧
      m'.mode = c4helpModel.mode ∧ m'.endpoints = c4helpModel.endpoints ∧
      m'.components = c4helpModel.components ∧
      m'.webhooks = c4helpModel.webhooks) :=
  ⟨rfl, rfl, by decide,
   c4_help_overlay_modal tiKeep 0 c4helpModel "down" rfl rfl (by decide)⟩

theorem filterItems_endpoints (m : Model) :
    (m.filterItems).endpoints = m.endpoints := by
  by_cases h : goToLower m.searchValue = "" <;> simp [Model.filterItems, h]

theorem filterItems_components (m : Model) :
    (m.filterItems).components = m.components := by
  by_cases h : goToLower m.searchValue = "" <;> simp [Model.filterItems, h]

theorem filterItems_webhooks (m : Model) :
    (m.filterItems).webhooks = m.webhooks := by
  by_cases h : goToLower m.searchValue = "" <;> simp [Model.filterItems, h]

theorem filterItems_searchValue (m : Model) :
    (m.filterItems).searchValue = m.searchValue := by
  by_cases h : goToLower m.searchValue = "" <;> simp [Model.filterItems, h]

theorem filterItems_searchMode (m : Model) :
    (m.filterItems).searchMode = m.searchMode := by
  by_cases h : goToLower m.searchValue = "" <;> simp [Model.filterItems, h]

/-- With the cursor at 0, `ensureCursorVisible` unconditionally sets
the scroll offset to 0 (the jump-to-top postcondition). -/
theorem recomputeScroll_cursor_zero (m : Model) (h : m.cursor = 0) :
    m.recomputeScroll = some { m with scrollOffset := 0 } := by
  simp [Model.recomputeScroll, ensureCursorVisible_eq, h]

/-- C5 (counterexample to the claim as stated): the sequence `g`
(t = 0 ns), `x` (t = 100 ms), `g` (t = 200 ms) — with another key
pressed between the two `g`s — still triggers the jump-to-top: the
cursor moves from 3 to 0, the scroll offset to 0 and the gesture
memory is cleared, because no other key handler touches `lastKey`. -/
theorem c5_intervening_key_counterexample :
    c5model.cursor = 3 ∧
    (do
      let r1 ← Model.update tiKeep 0 c5model (.key "g")
      let r2 ← Model.update tiKeep 100000000 r1.1 (.key "x")
      let r3 ← Model.update tiKeep 200000000 r2.1 (.key "g")
      some (r3.1.cursor, r3.1.scrollOffset, r3.1.lastKey))
    = some (0, 0, "") := by
  decide

/-- C5 (corrected, amended form): a press of `g` triggers the
jump-to-top exactly when the gesture memory holds `g` with a timestamp
strictly less than 500 ms old — intervening other keys neither clear
nor refresh the memory; after a trigger the memory is reset (so a
triple press cannot re-trigger), and otherwise the press only records
`g` and its timestamp. -/
theorem c5_gesture_characterization :
    ∀ (ti : String → String → String) (now : Int) (m : Model),
    m.searchMode = false → m.showHelp = false →
    ((m.lastKey = "g" ∧ now - m.lastKeyAt < keySequenceThreshold →
       ∃ m', Model.update ti now m (.key "g") = some (m', .nilCmd) ∧
         m'.cursor = 0 ∧ m'.scrollOffset = 0 ∧ m'.lastKey = "" ∧
         m'.lastKeyAt = 0) ∧
     (¬ (m.lastKey = "g" ∧ now - m.lastKeyAt < keySequenceThreshold) →
       Model.update ti now m (.key "g") =
         some ({ m with lastKey := "g", lastKeyAt := now }, .nilCmd))) := by
  intro ti now m hsm hh
  constructor
  · intro hg
    exact ⟨{ m with cursor := 0, scrollOffset := 0, lastKey := "", lastKeyAt := 0 },
      by simp [Model.update, hsm, hh, hg, recomputeScroll_cursor_zero],
      rfl, rfl, rfl, rfl⟩
  · intro hg
    simp [Model.update, hsm, hg]

/-- C5 witness: the amended theorem applied to a state whose gesture
memory holds `g` at timestamp 0, with the second press at 100 ms. -/
theorem c5_gesture_characterization_witness :
    ∃ m', Model.update tiKeep 100000000 c5gModel (.key "g") =
        some (m', .nilCmd) ∧
      m'.cursor = 0 ∧ m'.scrollOffset = 0 ∧ m'.lastKey = "" ∧
      m'.lastKeyAt = 0 :=
  (c5_gesture_characterization tiKeep 100000000 c5gModel rfl rfl).1
    ⟨rfl, by decide⟩

/-- C6 (counterexample to the claim as stated): with the command
overlay open (and help hidden), pressing `q` *terminates* the program
(`tea.Quit`) instead of closing the overlay, which stays open. -/
theorem c6_quit_with_curl_overlay_counterexample :
    c4model.showCurl = true ∧ c4model.showHelp = false ∧
    (Model.update tiKeep 0 c4model (.key "q")).map
      (fun p => (p.1.showCurl, p.2)) = some (true, TeaCmd.quit) := by
  decide

/-- C6 (corrected, amended form): the quit keys close the *help*
overlay when it is open and otherwise quit — even when the command
overlay is open (only help makes quit act as "back"). -/
theorem c6_quit_closes_help_only :
    ∀ (ti : String → String → String) (now : Int) (m : Model),
    m.searchMode = false →
    ((m.showHelp = true →
       Model.update ti now m (.key "q") =
           some ({ m with showHelp := false }, .nilCmd) ∧
       Model.update ti now m (.key "ctrl+c") =
           some ({ m with showHelp := false }, .nilCmd)) ∧
     (m.showHelp = false →
       Model.update ti now m (.key "q") = some (m, .quit) ∧
       Model.update ti now m (.key "ctrl+c") = some (m, .quit))) := by
  intro ti now m hsm
  constructor
  · intro hh
    constructor <;> simp [Model.update, hsm, hh]
  · intro hh
    constructor <;> simp [Model.update, hsm, hh]

/-- C6 witness: the amended theorem applied at the open-command-overlay
state: quit quits rather than closing the overlay. -/
theorem c6_quit_closes_help_only_witness :
    Model.update tiKeep 0 c4model (.key "q") = some (c4model, .quit) ∧
    Model.update tiKeep 0 c4model (.key "ctrl+c") = some (c4model, .quit) :=
  (c6_quit_closes_help_only tiKeep 0 c4model rfl).2 rfl

/-- C7 (counterexample to the claim as stated): entering search with
the cursor on index 4 and immediately committing (`/` then `enter`)
returns to browsing with the cursor still at 4 — committing a search
does *not* reset the cursor. -/
theorem c7_commit_preserves_cursor_counterexample :
    c7model.cursor = 4 ∧
    (do
      let r1 ← Model.update tiKeep 0 c7model (.key "/")
      let r2 ← Model.update tiKeep 1 r1.1 (.key "enter")
      some (r2.1.cursor, r2.1.searchMode))
    = some (4, false) := by
  decide

/-- C7 (corrected, amended form): committing a search (`enter` while
search-editing) only leaves search mode, changing nothing else — in
particular not the cursor; clearing a search (`esc` while
search-editing) and switching the view mode (`tab`) do reset cursor
and scroll offset to 0. -/
theorem c7_reset_on_clear_and_mode_switch :
    ∀ (ti : String → String → String) (now : Int) (m : Model),
    ((m.searchMode = true →
       Model.update ti now m (.key "enter") =
         some ({ m with searchMode := false }, .nilCmd)) ∧
     (m.searchMode = true →
       ∃ m', Model.update ti now m (.key "esc") = some (m', .nilCmd) ∧
         m'.cursor = 0 ∧ m'.scrollOffset = 0 ∧ m'.searchValue = "" ∧
         m'.searchMode = false) ∧
     (m.searchMode = false → m.showHelp = false →
       ∃ m', Model.update ti now m (.key "tab") = some (m', .nilCmd) ∧
         m'.cursor = 0 ∧ m'.scrollOffset = 0)) := by
  intro ti now m
  refine ⟨?_, ?_, ?_⟩
  · intro hsm
    simp [Model.update, hsm]
  · intro hsm
    refine ⟨{ ({ m with searchMode := false, searchValue := "" } : Model).filterItems with cursor := 0, scrollOffset := 0 }, by simp [Model.update, hsm], rfl, rfl, ?_, ?_⟩
    · exact filterItems_searchValue _
    · exact filterItems_searchMode _
  · intro hsm hh
    refine ⟨{ m with
        mode :=
          match m.mode with
          | ViewMode.endpoints =>
            if m.hasWebhooks then ViewMode.webhooks else ViewMode.components
          | ViewMode.webhooks => ViewMode.components
          | ViewMode.components => ViewMode.endpoints,
        cursor := 0, scrollOffset := 0 },
      by simp [Model.update, hsm, hh], rfl, rfl⟩

/-- C7 witness: the amended theorem applied at a concrete
search-editing state: commit leaves the state intact apart from the
search-mode flag. -/
theorem c7_reset_on_clear_and_mode_switch_witness :
    Model.update tiKeep 0 c10model (.key "enter") =
      some ({ c10model with searchMode := false }, .nilCmd) :=
  (c7_reset_on_clear_and_mode_switch tiKeep 0 c10model).1 rfl

theorem toggleFirstEndpoint_found (p mth : String) :
    ∀ (l : List Endpoint), (∃ e ∈ l, e.path = p ∧ e.method = mth) →
    ∃ (i : Nat) (e : Endpoint), l.get? i = some e ∧ e.path = p ∧
      e.method = mth ∧
      (∀ (j : Nat) (f : Endpoint), j < i → l.get? j = some f →
        ¬ (f.path = p ∧ f.method = mth)) ∧
      toggleFirstEndpoint p mth l =
        (l.set i { e with folded := !e.folded }, true) := by
  intro l
  induction l with
  | nil => rintro ⟨e, he, _⟩; simp at he
  | cons a l ih =>
    rintro ⟨e, he, hep, hem⟩
    by_cases ha : a.path = p ∧ a.method = mth
    · exact ⟨0, a, rfl, ha.1, ha.2, fun j f hj _ => by omega,
        by simp [toggleFirstEndpoint, ha]⟩
    · have hex : ∃ e ∈ l, e.path = p ∧ e.method = mth := by
        rcases List.mem_cons.mp he with rfl | hmem
        · exact absurd ⟨hep, hem⟩ ha
        · exact ⟨e, hmem, hep, hem⟩
      obtain ⟨i, e', hget, hp', hm', hmin, heq⟩ := ih hex
      refine ⟨i + 1, e', by simpa using hget, hp', hm', ?_, ?_⟩
      · intro j f hj hgf
        cases j with
        | zero =>
          have haf : a = f := by simpa using hgf
          subst haf
          exact ha
        | succ j => exact hmin j f (by omega) (by simpa using hgf)
      · simp [toggleFirstEndpoint, ha, heq]

/-- C8 (confirmed): (a) clearing the search (escape while editing)
leaves all three master collections untouched and makes each active
collection equal to its master collection (content, ordering and fold
flags included); (b) a fold toggle performed on the active (possibly
filtered) collection writes through to the *master* collection: it
flips exactly the fold flag of the first master item with the target's
identity, so flags toggled while a filter is active survive clearing
the query. -/
theorem c8_clear_restores_master :
    ∀ (ti : String → String → String) (now : Int) (m : Model),
    ((m.searchMode = true →
       ∃ m', Model.update ti now m (.key "esc") = some (m', .nilCmd) ∧
         m'.endpoints = m.endpoints ∧ m'.components = m.components ∧
         m'.webhooks = m.webhooks ∧ m'.searchValue = "" ∧
         m'.getActiveEndpoints = m.endpoints ∧
         m'.getActiveComponents = m.components ∧
         m'.getActiveWebhooks = m.webhooks) ∧
     (∀ target, m.searchMode = false → m.showHelp = false →
       m.mode = .endpoints → 0 ≤ m.cursor →
       m.getActiveEndpoints.get? m.cursor.toNat = some target →
       (∃ e ∈ m.endpoints, e.path = target.path ∧ e.method = target.method) →
       ∃ (m' : Model) (i : Nat) (e : Endpoint),
         Model.update ti now m (.key "enter") = some (m', .nilCmd) ∧
         m.endpoints.get? i = some e ∧ e.path = target.path ∧
         e.method = target.method ∧
         (∀ (j : Nat) (f : Endpoint), j < i → m.endpoints.get? j = some f →
           ¬ (f.path = target.path ∧ f.method = target.method)) ∧
         m'.endpoints = m.endpoints.set i { e with folded := !e.folded })) := by
  intro ti now m
  constructor
  · intro hsm
    refine ⟨{ ({ m with searchMode := false, searchValue := "" } : Model).filterItems with cursor := 0, scrollOffset := 0 }, by simp [Model.update, hsm], ?_, ?_, ?_, ?_, ?_, ?_, ?_⟩
    · exact filterItems_endpoints _
    · exact filterItems_components _
    · exact filterItems_webhooks _
    · exact filterItems_searchValue _
    · simp [Model.getActiveEndpoints, filterItems_searchValue,
        filterItems_endpoints]
    · simp [Model.getActiveComponents, filterItems_searchValue,
        filterItems_components]
    · simp [Model.getActiveWebhooks, filterItems_searchValue,
        filterItems_webhooks]
  · intro target hsm hh hmode hc hget hex
    rcases List.get?_eq_some.mp hget with ⟨hlt, hEq⟩
    have hclt : m.cursor < (m.getActiveEndpoints.length : Int) := by omega
    have htg : ∀ (h2 : m.cursor.toNat < m.getActiveEndpoints.length),
        m.getActiveEndpoints[m.cursor.toNat] = target := fun _ => hEq
    obtain ⟨i, e, hgete, hp, hm', hmin, heq⟩ :=
      toggleFirstEndpoint_found target.path target.method m.endpoints hex
    refine ⟨({ m with
        endpoints := m.endpoints.set i { e with folded := !e.folded } } :
          Model).filterItems, i, e,
      by simp [Model.update, hsm, hh, hmode, hclt, hc, hget, htg, heq],
      hgete, hp, hm', hmin, filterItems_endpoints _⟩

/-- C8 witness: clearing the search in a concrete search-editing state
restores the master collections as the active ones. -/
theorem c8_clear_restores_master_witness :
    ∃ m', Model.update tiKeep 0 c10model (.key "esc") = some (m', .nilCmd) ∧
      m'.endpoints = c10model.endpoints ∧
      m'.components = c10model.components ∧
      m'.webhooks = c10model.webhooks ∧ m'.searchValue = "" ∧
      m'.getActiveEndpoints = c10model.endpoints ∧
      m'.getActiveComponents = c10model.components ∧
      m'.getActiveWebhooks = c10model.webhooks :=
  (c8_clear_restores_master tiKeep 0 c10model).1 rfl

/-- C9 (counterexample to the claim as stated): for a POST endpoint
with a JSON request body and a bearer security scheme, the Go code
puts two headers in its `headers` map and emits them by ranging over
the map; Go map iteration order is randomized per run, so the two
possible orders — both permutations of the built header set — yield
*different* output strings: `generateCurl` is not deterministic across
runs. -/
theorem c9_header_order_counterexample :
    buildHeaders ep9 doc9 =
      [("Content-Type", "application/json"),
       ("Authorization", "Bearer YOUR_TOKEN")] ∧
    (buildHeaders ep9 doc9).reverse.Perm (buildHeaders ep9 doc9) ∧
    generateCurl ep9 doc9 (buildHeaders ep9 doc9) ≠
      generateCurl ep9 doc9 (buildHeaders ep9 doc9).reverse := by
  refine ⟨by decide, List.reverse_perm _, by decide⟩

/-- C9 (corrected, amended form): `generateCurl` is a pure function of
the endpoint, the document and the header iteration order, and the
header set itself (`buildHeaders`) is determined by the inputs — so
the output is deterministic *up to the order of the `-H` lines*, and
fully deterministic whenever at most one header is present. -/
theorem c9_deterministic_up_to_header_order :
    ∀ (ep : Endpoint) (doc : Doc) (l₁ l₂ : List (String × String)),
    l₁.Perm (buildHeaders ep doc) → l₂.Perm (buildHeaders ep doc) →
    (buildHeaders ep doc).length ≤ 1 →
    generateCurl ep doc l₁ = generateCurl ep doc l₂ := by
  intro ep doc l₁ l₂ h1 h2 hlen
  match hb : buildHeaders ep doc with
  | [] =>
    rw [hb] at h1 h2
    rw [List.perm_nil.mp h1, List.perm_nil.mp h2]
  | [x] =>
    rw [hb] at h1 h2
    rw [List.perm_singleton.mp h1, List.perm_singleton.mp h2]
  | x :: y :: rest =>
    rw [hb] at hlen
    simp at hlen

/-- C9 witness: a PUT endpoint with a request body and no security
puts exactly one header in the map, so the output is unique. -/
theorem c9_deterministic_up_to_header_order_witness :
    generateCurl epW docW (buildHeaders epW docW) =
      generateCurl epW docW [("Content-Type", "application/json")] :=
  c9_deterministic_up_to_header_order epW docW (buildHeaders epW docW)
    [("Content-Type", "application/json")] (List.Perm.refl _)
    (by decide) (by decide)

theorem filterItems_filteredEndpoints (m : Model) :
    (m.filterItems).filteredEndpoints =
      (if goToLower m.searchValue = "" then []
       else m.endpoints.filter (endpointMatches (goToLower m.searchValue))) := by
  by_cases h : goToLower m.searchValue = "" <;> simp [Model.filterItems, h]

theorem filterItems_filteredComponents (m : Model) :
    (m.filterItems).filteredComponents =
      (if goToLower m.searchValue = "" then []
       else m.components.filter (componentMatches (goToLower m.searchValue))) := by
  by_cases h : goToLower m.searchValue = "" <;> simp [Model.filterItems, h]

theorem filterItems_filteredWebhooks (m : Model) :
    (m.filterItems).filteredWebhooks =
      (if goToLower m.searchValue = "" then []
       else m.webhooks.filter (webhookMatches (goToLower m.searchValue))) := by
  by_cases h : goToLower m.searchValue = "" <;> simp [Model.filterItems, h]

/-- C10 (confirmed): while search mode is active, every key outside
the escape set {esc, ctrl+c, enter} is routed to the text input (the
new query is the text input's transition applied to the old value),
all three filtered collections are rebuilt from the *master*
collections and the new query, and both cursor and scroll offset are
reset to 0 — on every edit, not only on commit or clear. -/
theorem c10_search_keystroke_rebuilds :
    ∀ (ti : String → String → String) (now : Int) (m : Model) (key : String),
    m.searchMode = true → key ≠ "esc" → key ≠ "ctrl+c" → key ≠ "enter" →
    ∃ m', Model.update ti now m (.key key) = some (m', .nilCmd) ∧
      m'.searchValue = ti key m.searchValue ∧
      m'.endpoints = m.endpoints ∧ m'.components = m.components ∧
      m'.webhooks = m.webhooks ∧
      m'.filteredEndpoints =
        (if goToLower (ti key m.searchValue) = "" then []
         else m.endpoints.filter
           (endpointMatches (goToLower (ti key m.searchValue)))) ∧
      m'.filteredComponents =
        (if goToLower (ti key m.searchValue) = "" then []
         else m.components.filter
           (componentMatches (goToLower (ti key m.searchValue)))) ∧
      m'.filteredWebhooks =
        (if goToLower (ti key m.searchValue) = "" then []
         else m.webhooks.filter
           (webhookMatches (goToLower (ti key m.searchValue)))) ∧
      m'.cursor = 0 ∧ m'.scrollOffset = 0 ∧ m'.searchMode = true := by
  intro ti now m key hsm hk1 hk2 hk3
  refine ⟨{ ({ m with searchValue := ti key m.searchValue } : Model).filterItems with cursor := 0, scrollOffset := 0 }, by simp [Model.update, hsm, hk1, hk2, hk3], ?_, ?_, ?_, ?_, ?_, ?_, ?_, rfl, rfl, ?_⟩
  · exact filterItems_searchValue _
  · exact filterItems_endpoints _
  · exact filterItems_components _
  · exact filterItems_webhooks _
  · exact filterItems_filteredEndpoints _
  · exact filterItems_filteredComponents _
  · exact filterItems_filteredWebhooks _
  · exact (filterItems_searchMode _).trans hsm

/-- C10 witness: typing `p` in a concrete search-editing state rebuilds
the filtered collections and resets cursor and scroll offset. -/
theorem c10_search_keystroke_rebuilds_witness :
    ∃ m', Model.update tiAppend 0 c10model (.key "p") = some (m', .nilCmd) ∧
      m'.searchValue = tiAppend "p" c10model.searchValue ∧
      m'.endpoints = c10model.endpoints ∧
      m'.components = c10model.components ∧
      m'.webhooks = c10model.webhooks ∧
      m'.filteredEndpoints =
        (if goToLower (tiAppend "p" c10model.searchValue) = "" then []
         else c10model.endpoints.filter
           (endpointMatches (goToLower (tiAppend "p" c10model.searchValue)))) ∧
      m'.filteredComponents =
        (if goToLower (tiAppend "p" c10model.searchValue) = "" then []
         else c10model.components.filter
           (componentMatches (goToLower (tiAppend "p" c10model.searchValue)))) ∧
      m'.filteredWebhooks =
        (if goToLower (tiAppend "p" c10model.searchValue) = "" then []
         else c10model.webhooks.filter
           (webhookMatches (goToLower (tiAppend "p" c10model.searchValue)))) ∧
      m'.cursor = 0 ∧ m'.scrollOffset = 0 ∧ m'.searchMode = true :=
  c10_search_keystroke_rebuilds tiAppend 0 c10model "p" rfl (by decide)
    (by decide) (by decide)
